import Mathlib

/-!
# Convox syslog resource: the four lifecycle operations

A shallow embedding of `convox/resource_convox_syslog.go` and proofs about it.

* The declared state `*schema.ResourceData` is a record of the seven schema
  fields; `Get`, `GetOk` and `Set` are the accessors the Go code calls.
* A Go `error` is represented by its `Error()` text.
* The remote API is a record of four functions; every lifecycle operation
  returns, next to its Go return value, the declared state after the call (the
  Go code mutates `d` in place) and the list of remote calls it issued.
* `log.Printf` calls only write to the process log and are left out.
-/

namespace Convox

/-! ## Go values and `map[string]string` -/

/-- Bytewise order on keys, the order in which `fmt` prints the keys of a map. -/
def keyLt : List Char → List Char → Bool
  | [], [] => false
  | [], _ :: _ => true
  | _ :: _, [] => false
  | a :: as, b :: bs =>
    if a.toNat < b.toNat then true
    else if a.toNat = b.toNat then keyLt as bs
    else false

/-- A Go `map[string]string`, kept as the list of its entries in increasing key
order, so that two maps with the same entries are the same list. -/
abbrev Options := List (String × String)

/-- Go `m[k] = v`: replaces the entry of `k` if there is one, adds it otherwise. -/
def Options.set : Options → String → String → Options
  | [], k, v => [(k, v)]
  | (k0, v0) :: rest, k, v =>
    if k = k0 then (k, v) :: rest
    else if keyLt k.data k0.data then (k, v) :: (k0, v0) :: rest
    else (k0, v0) :: Options.set rest k v

/-- Go `v, ok := m[k]`, with `none` for `ok = false`. -/
def Options.find : Options → String → Option String
  | [], _ => none
  | (k0, v0) :: rest, k => if k = k0 then some v0 else Options.find rest k

/-- Go `m[k]`: the zero value `""` when the key is absent. -/
def Options.get (m : Options) (k : String) : String :=
  (m.find k).getD ""

/-- Key set of a map, in increasing order. -/
def Options.keys (m : Options) : List String :=
  m.map Prod.fst

/-- Go values of type `interface{}` that occur in this file. -/
inductive Value where
  | nil
  | str (s : String)
  | int (i : Int)
  | bool (b : Bool)
  | strmap (m : Options)
  deriving DecidableEq, Repr

/-- Go type assertion `v.(string)`; `none` stands for the run-time panic. -/
def Value.assertString : Value → Option String
  | .str s => some s
  | _ => none

/-- Whether a value is the zero value of its type. -/
def Value.isZero : Value → Bool
  | .nil => true
  | .str s => s.data.isEmpty
  | .int i => decide (i = 0)
  | .bool b => !b
  | .strmap m => m.isEmpty

/-! ## `fmt.Sprintf`

Only what the format strings of this file use is modelled: literal text, `%%`
and the verbs `%s`, `%d`, `%v` without flags, width or precision.  The character
after `%` is taken as the verb; an operand under a verb other than the ones
listed for it below is rendered the way `fmt` reports a bad verb. -/

/-- Go `%d` of an `int`: decimal digits, with a leading `-` when negative. -/
def fmtInt : Int → List Char
  | Int.ofNat n => Nat.toDigits 10 n
  | Int.negSucc n => '-' :: Nat.toDigits 10 (n + 1)

/-- Go `%v` of a `bool`. -/
def fmtBool (b : Bool) : List Char :=
  if b then "true".data else "false".data

/-- Entries of a map as `fmt` prints them between `map[` and `]`. -/
def fmtEntries (one : String → List Char) : Options → List Char
  | [] => []
  | [(k, v)] => one k ++ ':' :: one v
  | (k, v) :: rest => one k ++ ':' :: one v ++ ' ' :: fmtEntries one rest

/-- Go `fmt` rendering of a map: `map[k1:v1 k2:v2]`, keys in sorted order (the
order `fmt` uses since Go 1.12; earlier releases print in iteration order). -/
def fmtMap (one : String → List Char) (m : Options) : List Char :=
  "map[".data ++ fmtEntries one m ++ [']']

/-- Rendering `%!verb(type=value)` of an operand the verb does not fit. -/
def badVerb (verb : Char) (typeName : String) (value : List Char) : List Char :=
  "%!".data ++ verb :: '(' :: typeName.data ++ '=' :: value ++ [')']

/-- One operand under one verb. -/
def fmtVerb (verb : Char) : Value → List Char
  | .nil =>
    if verb = 'v' then "<nil>".data else "%!".data ++ verb :: "(<nil>)".data
  | .str s =>
    if verb = 's' ∨ verb = 'v' then s.data else badVerb verb "string" s.data
  | .int i =>
    if verb = 'd' ∨ verb = 'v' then fmtInt i else badVerb verb "int" (fmtInt i)
  | .bool b =>
    if verb = 'v' then fmtBool b else badVerb verb "bool" (fmtBool b)
  | .strmap m =>
    if verb = 's' ∨ verb = 'v' then fmtMap String.data m
    else fmtMap (fun s => badVerb verb "string" s.data) m

/-- Go type name of an operand, as shown for surplus operands. -/
def Value.typeName : Value → String
  | .nil => "<nil>"
  | .str _ => "string"
  | .int _ => "int"
  | .bool _ => "bool"
  | .strmap _ => "map[string]string"

/-- Surplus operands, separated by `, `. -/
def fmtExtraArgs : List Value → List Char
  | [] => []
  | [.nil] => "<nil>".data
  | [a] => a.typeName.data ++ '=' :: fmtVerb 'v' a
  | .nil :: rest => "<nil>".data ++ ", ".data ++ fmtExtraArgs rest
  | a :: rest => a.typeName.data ++ '=' :: fmtVerb 'v' a ++ ", ".data ++ fmtExtraArgs rest

/-- What `fmt` appends when operands are left over at the end of the format. -/
def fmtExtra : List Value → List Char
  | [] => []
  | a :: rest => "%!(EXTRA ".data ++ fmtExtraArgs (a :: rest) ++ [')']

/-- Scan of the format string, consuming one operand per verb. -/
def sprintfAux : List Char → List Value → List Char
  | [], args => fmtExtra args
  | c :: rest, args =>
    if c = '%' then
      match rest, args with
      | [], args => "%!(NOVERB)".data ++ fmtExtra args
      | verb :: rest2, [] =>
        if verb = '%' then '%' :: sprintfAux rest2 []
        else "%!".data ++ verb :: "(MISSING)".data ++ sprintfAux rest2 []
      | verb :: rest2, a :: args2 =>
        if verb = '%' then '%' :: sprintfAux rest2 (a :: args2)
        else fmtVerb verb a ++ sprintfAux rest2 args2
    else c :: sprintfAux rest args

/-- Go `fmt.Sprintf(format, args...)`. -/
def Sprintf (format : String) (args : List Value) : String :=
  ⟨sprintfAux format.data args⟩

/-! ## Declared state: `schema.ResourceData` under the schema of `ResourceConvoxSyslog` -/

/-- Declared state of one syslog resource.  `name`, `rack`, `hostname`, `port`
and `scheme` are `Required`; `privateConfig` is the `private` attribute as the
configuration gives it (`none` when the configuration does not set it, the
attribute being `Optional`); `url` is `Computed`. -/
structure ResourceData where
  name : String
  rack : String
  hostname : String
  port : Int
  scheme : String
  privateConfig : Option Bool
  url : String
  deriving DecidableEq, Repr

/-- Library call `d.Get(key)` of `helper/schema`.  The `private` attribute is
declared with `Default: false`, which is what is read when the configuration
does not set it.  Keys outside the schema are not read by this file. -/
def ResourceData.Get (d : ResourceData) (key : String) : Value :=
  if key = "name" then .str d.name
  else if key = "rack" then .str d.rack
  else if key = "hostname" then .str d.hostname
  else if key = "port" then .int d.port
  else if key = "scheme" then .str d.scheme
  else if key = "private" then .bool (d.privateConfig.getD false)
  else if key = "url" then .str d.url
  else .nil

/-- Library call `d.GetOk(key)` of `helper/schema`: "returns the data for the
given key and whether or not the key has been set to a non-zero value".  The
second component is false when the value equals the zero value of the
attribute's type, whether it was written in the configuration or not. -/
def ResourceData.GetOk (d : ResourceData) (key : String) : Value × Bool :=
  (d.Get key, !(d.Get key).isZero)

/-- Library call `d.Set(key, value)` of `helper/schema`, for a value of the
attribute's own type; its `error` result, which the callers drop, is not
represented, and a value of another type leaves the state as it is. -/
def ResourceData.Set (d : ResourceData) (key : String) (value : Value) : ResourceData :=
  match value with
  | .str s =>
    if key = "name" then { d with name := s }
    else if key = "rack" then { d with rack := s }
    else if key = "hostname" then { d with hostname := s }
    else if key = "scheme" then { d with scheme := s }
    else if key = "url" then { d with url := s }
    else d
  | .int i => if key = "port" then { d with port := i } else d
  | .bool b => if key = "private" then { d with privateConfig := some b } else d
  | _ => d

/-! ## Remote API -/

/-- Remote record; only its `Exports` map is read. -/
structure Resource where
  Exports : Options
  deriving DecidableEq, Repr

/-- Modelled from the spec: the `Client` interface is declared outside
`resource_convox_syslog.go`.  Its four primitives each return a record pointer
(`none` for a nil pointer) or an error, given by its text. -/
structure Client where
  CreateResource : String → Options → Except String (Option Resource)
  GetResource : String → Except String (Option Resource)
  UpdateResource : String → Options → Except String (Option Resource)
  DeleteResource : String → Except String (Option Resource)

/-- Modelled from the spec: the `ClientUnpacker` function type is declared
outside `resource_convox_syslog.go`.  It takes the declared state and the
ambient context `meta` and returns a client or an error. -/
abbrev ClientUnpacker (Meta : Type) := ResourceData → Meta → Except String Client

/-- One remote call, with its arguments. -/
inductive RemoteCall where
  | CreateResource (kind : String) (options : Options)
  | GetResource (name : String)
  | UpdateResource (name : String) (options : Options)
  | DeleteResource (name : String)
  deriving DecidableEq, Repr

/-- What the client answers to a call. -/
def Client.answer (c : Client) : RemoteCall → Except String (Option Resource)
  | .CreateResource kind options => c.CreateResource kind options
  | .GetResource name => c.GetResource name
  | .UpdateResource name options => c.UpdateResource name options
  | .DeleteResource name => c.DeleteResource name

/-- Go return of a lifecycle function: `nil`, an error, or a run-time panic. -/
inductive Ret where
  | ok
  | err (msg : String)
  | panicked
  deriving DecidableEq, Repr

/-- Result of running a lifecycle function: what it returned, the declared
state afterwards, and the remote calls it issued, in order. -/
structure Outcome where
  ret : Ret
  d : ResourceData
  calls : List RemoteCall
  deriving DecidableEq, Repr

/-! ## The lifecycle operations -/

/-- Source function `formURLString`. -/
def formURLString (d : ResourceData) : String :=
  Sprintf "%s://%s:%d" [d.Get "scheme", d.Get "hostname", d.Get "port"]

/-- Function returned by `ResourceConvoxSyslogCreateFactory(clientUnpacker)`;
`none` is a nil `clientUnpacker`. -/
def ResourceConvoxSyslogCreateFactory {Meta : Type} (clientUnpacker : Option (ClientUnpacker Meta))
    (d : ResourceData) (meta : Meta) : Outcome :=
  match clientUnpacker with
  | none => ⟨.err "clientUnpacker is required", d, []⟩
  | some unpack =>
    match unpack d meta with
    | .error err => ⟨.err (Sprintf "Error unpacking client in CreateFunc: %s" [.str err]), d, []⟩
    | .ok c =>
      match (d.Get "name").assertString with
      | none => ⟨.panicked, d, []⟩
      | some name =>
        let options := (Options.set [] "name" name).set "Url" (formURLString d)
        let options :=
          if (d.GetOk "private").2 then options.set "Private" (Sprintf "%v" [(d.GetOk "private").1])
          else options
        match c.CreateResource "syslog" options with
        | .error err =>
          ⟨.err (Sprintf "Error calling CreateResource: %s -- %v" [.str err, .strmap options]), d,
            [.CreateResource "syslog" options]⟩
        | .ok _ => ⟨.ok, d.Set "url" (.str (options.get "Url")), [.CreateResource "syslog" options]⟩

/-- Function returned by `ResourceConvoxSyslogReadFactory(clientUnpacker)`. -/
def ResourceConvoxSyslogReadFactory {Meta : Type} (clientUnpacker : Option (ClientUnpacker Meta))
    (d : ResourceData) (meta : Meta) : Outcome :=
  match clientUnpacker with
  | none => ⟨.err "clientUnpacker is required", d, []⟩
  | some unpack =>
    match unpack d meta with
    | .error err => ⟨.err (Sprintf "Error getting client in ReadFunc: %s" [.str err]), d, []⟩
    | .ok c =>
      match (d.Get "name").assertString with
      | none => ⟨.panicked, d, []⟩
      | some name =>
        match c.GetResource name with
        | .error err => ⟨.err (Sprintf "Error calling GetResource: %s" [.str err]), d, [.GetResource name]⟩
        | .ok none => ⟨.panicked, d, [.GetResource name]⟩
        | .ok (some convoxResource) =>
          ⟨.ok, d.Set "url" (.str (convoxResource.Exports.get "URL")), [.GetResource name]⟩

/-- Function returned by `ResourceConvoxSyslogUpdateFactory(clientUnpacker)`. -/
def ResourceConvoxSyslogUpdateFactory {Meta : Type} (clientUnpacker : Option (ClientUnpacker Meta))
    (d : ResourceData) (meta : Meta) : Outcome :=
  match clientUnpacker with
  | none => ⟨.err "clientUnpacker is required", d, []⟩
  | some unpack =>
    match unpack d meta with
    | .error err => ⟨.err (Sprintf "Error getting client in UpdateFunc: %s" [.str err]), d, []⟩
    | .ok c =>
      let options := Options.set [] "Url" (formURLString d)
      let options :=
        if (d.GetOk "private").2 then options.set "Private" (Sprintf "%v" [(d.GetOk "private").1])
        else options
      match (d.Get "name").assertString with
      | none => ⟨.panicked, d, []⟩
      | some name =>
        match c.UpdateResource name options with
        | .error err =>
          ⟨.err (Sprintf "Error calling UpdateResource: %s -- %v" [.str err, .strmap options]), d,
            [.UpdateResource name options]⟩
        | .ok _ => ⟨.ok, d.Set "url" (.str (options.get "Url")), [.UpdateResource name options]⟩

/-- Function returned by `ResourceConvoxSyslogDeleteFactory(clientUnpacker)`. -/
def ResourceConvoxSyslogDeleteFactory {Meta : Type} (clientUnpacker : Option (ClientUnpacker Meta))
    (d : ResourceData) (meta : Meta) : Outcome :=
  match clientUnpacker with
  | none => ⟨.err "clientUnpacker is required", d, []⟩
  | some unpack =>
    match unpack d meta with
    | .error err => ⟨.err (Sprintf "Error getting client in DeleteFunc: %s" [.str err]), d, []⟩
    | .ok c =>
      match (d.Get "name").assertString with
      | none => ⟨.panicked, d, []⟩
      | some name =>
        match c.DeleteResource name with
        | .error err => ⟨.err (Sprintf "Error calling DeleteResource: %s" [.str err]), d, [.DeleteResource name]⟩
        | .ok _ => ⟨.ok, d, [.DeleteResource name]⟩

/-! ## Concrete inputs used in the examples below -/

/-- Declared configuration of the example scenario, `private` set to `true`. -/
def exampleData : ResourceData :=
  { name := "logs1", rack := "prod", hostname := "logs.example.com", port := 514,
    scheme := "tcp", privateConfig := some true, url := "stale" }

/-- A client whose four primitives all succeed. -/
def okClient : Client :=
  { CreateResource := fun _ _ => .ok (some ⟨[]⟩)
    GetResource := fun _ => .ok (some ⟨Options.set [] "URL" "tcp://remote:1"⟩)
    UpdateResource := fun _ _ => .ok (some ⟨[]⟩)
    DeleteResource := fun _ => .ok (some ⟨[]⟩) }

/-- A client whose four primitives all fail with the text `boom`. -/
def failClient : Client :=
  { CreateResource := fun _ _ => .error "boom"
    GetResource := fun _ => .error "boom"
    UpdateResource := fun _ _ => .error "boom"
    DeleteResource := fun _ => .error "boom" }

/-- A provisioner that yields `okClient`. -/
def okUnpacker : ClientUnpacker Unit := fun _ _ => .ok okClient

/-- A provisioner that yields `failClient`. -/
def failingRemoteUnpacker : ClientUnpacker Unit := fun _ _ => .ok failClient

/-- A provisioner that fails with the text `no creds`. -/
def brokenUnpacker : ClientUnpacker Unit := fun _ _ => .error "no creds"

/-- Whether `sub` occurs in `text` as a contiguous run of characters. -/
def occursIn (sub : List Char) : List Char → Bool
  | [] => sub.isEmpty
  | c :: rest => sub.isPrefixOf (c :: rest) || occursIn sub rest

/-! ## `fmt.Sprintf` on the format strings of this file -/

theorem fmtInt_eq (p : Int) : fmtInt p = (toString p).data := by
  cases p with
  | ofNat n => rfl
  | negSucc n => rfl

theorem fmtBool_eq (b : Bool) : fmtBool b = (toString b).data := by
  cases b <;> rfl

theorem sprintf_url (s h : String) (p : Int) :
    Sprintf "%s://%s:%d" [.str s, .str h, .int p] = s ++ "://" ++ h ++ ":" ++ toString p := by
  apply String.ext
  simp [Sprintf, sprintfAux, fmtVerb, fmtExtra, fmtInt_eq]

theorem sprintf_bool (b : Bool) : Sprintf "%v" [.bool b] = toString b := by
  apply String.ext
  simp [Sprintf, sprintfAux, fmtVerb, fmtExtra, fmtBool_eq]

theorem sprintf_unpack_create (e : String) :
    Sprintf "Error unpacking client in CreateFunc: %s" [.str e]
      = "Error unpacking client in CreateFunc: " ++ e := by
  apply String.ext
  simp [Sprintf, sprintfAux, fmtVerb, fmtExtra]

theorem sprintf_unpack_read (e : String) :
    Sprintf "Error getting client in ReadFunc: %s" [.str e]
      = "Error getting client in ReadFunc: " ++ e := by
  apply String.ext
  simp [Sprintf, sprintfAux, fmtVerb, fmtExtra]

theorem sprintf_unpack_update (e : String) :
    Sprintf "Error getting client in UpdateFunc: %s" [.str e]
      = "Error getting client in UpdateFunc: " ++ e := by
  apply String.ext
  simp [Sprintf, sprintfAux, fmtVerb, fmtExtra]

theorem sprintf_unpack_delete (e : String) :
    Sprintf "Error getting client in DeleteFunc: %s" [.str e]
      = "Error getting client in DeleteFunc: " ++ e := by
  apply String.ext
  simp [Sprintf, sprintfAux, fmtVerb, fmtExtra]

theorem sprintf_call_create (e : String) (o : Options) :
    Sprintf "Error calling CreateResource: %s -- %v" [.str e, .strmap o]
      = "Error calling CreateResource: " ++ e ++ " -- " ++ Sprintf "%v" [.strmap o] := by
  apply String.ext
  simp [Sprintf, sprintfAux, fmtVerb, fmtExtra]

/-! ## Reading the declared state -/

theorem get_name (d : ResourceData) : d.Get "name" = .str d.name := rfl

theorem get_private (d : ResourceData) :
    d.Get "private" = .bool (d.privateConfig.getD false) := rfl

theorem getOk_private (d : ResourceData) :
    d.GetOk "private" = (.bool (d.privateConfig.getD false), d.privateConfig.getD false) := by
  simp [ResourceData.GetOk, get_private, Value.isZero]

theorem set_url (d : ResourceData) (s : String) :
    d.Set "url" (.str s) = { d with url := s } := rfl

theorem formURLString_eq (d : ResourceData) :
    formURLString d = d.scheme ++ "://" ++ d.hostname ++ ":" ++ toString d.port := by
  have hs : d.Get "scheme" = .str d.scheme := rfl
  have hh : d.Get "hostname" = .str d.hostname := rfl
  have hp : d.Get "port" = .int d.port := rfl
  simp [formURLString, hs, hh, hp, sprintf_url]

/-! ## The payloads -/

theorem create_options_plain (n u : String) :
    (Options.set [] "name" n).set "Url" u = [("Url", u), ("name", n)] := rfl

theorem create_options_private (n u p : String) :
    ((Options.set [] "name" n).set "Url" u).set "Private" p
      = [("Private", p), ("Url", u), ("name", n)] := rfl

theorem update_options_plain (u : String) : Options.set [] "Url" u = [("Url", u)] := rfl

theorem update_options_private (u p : String) :
    (Options.set [] "Url" u).set "Private" p = [("Private", p), ("Url", u)] := rfl

/-- Payload and effect of create once a client is at hand. -/
theorem create_with_client {Meta : Type} (unpack : ClientUnpacker Meta) (d : ResourceData)
    (meta : Meta) (c : Client) (hc : unpack d meta = .ok c) :
    ∃ o : Options,
      o = (if d.privateConfig.getD false
            then [("Private", "true"), ("Url", formURLString d), ("name", d.name)]
            else [("Url", formURLString d), ("name", d.name)]) ∧
      ResourceConvoxSyslogCreateFactory (some unpack) d meta =
        (match c.CreateResource "syslog" o with
          | .error err =>
            ⟨.err ("Error calling CreateResource: " ++ err ++ " -- " ++ Sprintf "%v" [.strmap o]), d,
              [.CreateResource "syslog" o]⟩
          | .ok _ => ⟨.ok, { d with url := formURLString d }, [.CreateResource "syslog" o]⟩) := by
  refine ⟨_, rfl, ?_⟩
  simp only [ResourceConvoxSyslogCreateFactory, hc, get_name, Value.assertString, getOk_private,
    create_options_plain]
  cases hp : d.privateConfig.getD false
  · simp only [Bool.false_eq_true, if_false]
    cases hr : c.CreateResource "syslog" [("Url", formURLString d), ("name", d.name)]
    · simp [sprintf_call_create]
    · simp [set_url, Options.get, Options.find]
  · simp only [if_true, sprintf_bool]
    have : (Options.set [("Url", formURLString d), ("name", d.name)] "Private" (toString true))
        = [("Private", "true"), ("Url", formURLString d), ("name", d.name)] := rfl
    rw [this]
    cases hr : c.CreateResource "syslog"
        [("Private", "true"), ("Url", formURLString d), ("name", d.name)]
    · simp [sprintf_call_create]
    · simp [set_url, Options.get, Options.find]

theorem sprintf_call_update (e : String) (o : Options) :
    Sprintf "Error calling UpdateResource: %s -- %v" [.str e, .strmap o]
      = "Error calling UpdateResource: " ++ e ++ " -- " ++ Sprintf "%v" [.strmap o] := by
  apply String.ext
  simp [Sprintf, sprintfAux, fmtVerb, fmtExtra]

theorem sprintf_call_get (e : String) :
    Sprintf "Error calling GetResource: %s" [.str e] = "Error calling GetResource: " ++ e := by
  apply String.ext
  simp [Sprintf, sprintfAux, fmtVerb, fmtExtra]

theorem sprintf_call_delete (e : String) :
    Sprintf "Error calling DeleteResource: %s" [.str e]
      = "Error calling DeleteResource: " ++ e := by
  apply String.ext
  simp [Sprintf, sprintfAux, fmtVerb, fmtExtra]

theorem sprintf_map_plain (u n : String) :
    Sprintf "%v" [.strmap [("Url", u), ("name", n)]]
      = "map[Url:" ++ u ++ " name:" ++ n ++ "]" := by
  apply String.ext
  simp [Sprintf, sprintfAux, fmtVerb, fmtMap, fmtEntries, fmtExtra]

theorem sprintf_map_private (u n : String) :
    Sprintf "%v" [.strmap [("Private", "true"), ("Url", u), ("name", n)]]
      = "map[Private:true Url:" ++ u ++ " name:" ++ n ++ "]" := by
  apply String.ext
  simp [Sprintf, sprintfAux, fmtVerb, fmtMap, fmtEntries, fmtExtra]

/-- Payload and effect of update once a client is at hand. -/
theorem update_with_client {Meta : Type} (unpack : ClientUnpacker Meta) (d : ResourceData)
    (meta : Meta) (c : Client) (hc : unpack d meta = .ok c) :
    ∃ o : Options,
      o = (if d.privateConfig.getD false
            then [("Private", "true"), ("Url", formURLString d)]
            else [("Url", formURLString d)]) ∧
      ResourceConvoxSyslogUpdateFactory (some unpack) d meta =
        (match c.UpdateResource d.name o with
          | .error err =>
            ⟨.err ("Error calling UpdateResource: " ++ err ++ " -- " ++ Sprintf "%v" [.strmap o]), d,
              [.UpdateResource d.name o]⟩
          | .ok _ => ⟨.ok, { d with url := formURLString d }, [.UpdateResource d.name o]⟩) := by
  refine ⟨_, rfl, ?_⟩
  simp only [ResourceConvoxSyslogUpdateFactory, hc, get_name, Value.assertString, getOk_private,
    update_options_plain]
  cases hp : d.privateConfig.getD false
  · simp only [Bool.false_eq_true, if_false]
    cases hr : c.UpdateResource d.name [("Url", formURLString d)]
    · simp [sprintf_call_update]
    · simp [set_url, Options.get, Options.find]
  · simp only [if_true, sprintf_bool]
    have : (Options.set [("Url", formURLString d)] "Private" (toString true))
        = [("Private", "true"), ("Url", formURLString d)] := rfl
    rw [this]
    cases hr : c.UpdateResource d.name [("Private", "true"), ("Url", formURLString d)]
    · simp [sprintf_call_update]
    · simp [set_url, Options.get, Options.find]

/-- Effect of read once a client is at hand. -/
theorem read_with_client {Meta : Type} (unpack : ClientUnpacker Meta) (d : ResourceData)
    (meta : Meta) (c : Client) (hc : unpack d meta = .ok c) :
    ResourceConvoxSyslogReadFactory (some unpack) d meta =
      (match c.GetResource d.name with
        | .error err => ⟨.err ("Error calling GetResource: " ++ err), d, [.GetResource d.name]⟩
        | .ok none => ⟨.panicked, d, [.GetResource d.name]⟩
        | .ok (some r) => ⟨.ok, { d with url := r.Exports.get "URL" }, [.GetResource d.name]⟩) := by
  simp only [ResourceConvoxSyslogReadFactory, hc, get_name, Value.assertString]
  cases hr : c.GetResource d.name with
  | error err => simp [sprintf_call_get]
  | ok r => cases r <;> simp [set_url]

/-- Effect of delete once a client is at hand. -/
theorem delete_with_client {Meta : Type} (unpack : ClientUnpacker Meta) (d : ResourceData)
    (meta : Meta) (c : Client) (hc : unpack d meta = .ok c) :
    ResourceConvoxSyslogDeleteFactory (some unpack) d meta =
      (match c.DeleteResource d.name with
        | .error err => ⟨.err ("Error calling DeleteResource: " ++ err), d, [.DeleteResource d.name]⟩
        | .ok _ => ⟨.ok, d, [.DeleteResource d.name]⟩) := by
  simp only [ResourceConvoxSyslogDeleteFactory, hc, get_name, Value.assertString]
  cases hr : c.DeleteResource d.name with
  | error err => simp [sprintf_call_delete]
  | ok r => simp

/-- Remote calls of create do not depend on what the client answers. -/
theorem create_calls {Meta : Type} (unpack : ClientUnpacker Meta) (d : ResourceData)
    (meta : Meta) (c : Client) (hc : unpack d meta = .ok c) :
    (ResourceConvoxSyslogCreateFactory (some unpack) d meta).calls =
      [.CreateResource "syslog"
        (if d.privateConfig.getD false
          then [("Private", "true"), ("Url", formURLString d), ("name", d.name)]
          else [("Url", formURLString d), ("name", d.name)])] := by
  obtain ⟨o, ho, h⟩ := create_with_client unpack d meta c hc
  rw [h, ← ho]
  cases c.CreateResource "syslog" o <;> rfl

/-- Remote calls of update do not depend on what the client answers. -/
theorem update_calls {Meta : Type} (unpack : ClientUnpacker Meta) (d : ResourceData)
    (meta : Meta) (c : Client) (hc : unpack d meta = .ok c) :
    (ResourceConvoxSyslogUpdateFactory (some unpack) d meta).calls =
      [.UpdateResource d.name
        (if d.privateConfig.getD false
          then [("Private", "true"), ("Url", formURLString d)]
          else [("Url", formURLString d)])] := by
  obtain ⟨o, ho, h⟩ := update_with_client unpack d meta c hc
  rw [h, ← ho]
  cases c.UpdateResource d.name o <;> rfl

/-- Remote calls of read do not depend on what the client answers. -/
theorem read_calls {Meta : Type} (unpack : ClientUnpacker Meta) (d : ResourceData)
    (meta : Meta) (c : Client) (hc : unpack d meta = .ok c) :
    (ResourceConvoxSyslogReadFactory (some unpack) d meta).calls = [.GetResource d.name] := by
  rw [read_with_client unpack d meta c hc]
  cases c.GetResource d.name with
  | error err => rfl
  | ok r => cases r <;> rfl

/-- Remote calls of delete do not depend on what the client answers. -/
theorem delete_calls {Meta : Type} (unpack : ClientUnpacker Meta) (d : ResourceData)
    (meta : Meta) (c : Client) (hc : unpack d meta = .ok c) :
    (ResourceConvoxSyslogDeleteFactory (some unpack) d meta).calls = [.DeleteResource d.name] := by
  rw [delete_with_client unpack d meta c hc]
  cases c.DeleteResource d.name <;> rfl

/-! ## The claims -/

/-- C1: when the provisioner yields a client and every remote call issued
succeeds, create and update each leave `url` equal to
`scheme ++ "://" ++ hostname ++ ":" ++ decimal port`, whatever `url` held in the
declared state `d` before the call. -/
theorem url_after_create_and_update {Meta : Type} (unpack : ClientUnpacker Meta)
    (d : ResourceData) (meta : Meta) (c : Client) (hc : unpack d meta = .ok c) :
    ((∀ call ∈ (ResourceConvoxSyslogCreateFactory (some unpack) d meta).calls,
        ∃ r, c.answer call = .ok r) →
      (ResourceConvoxSyslogCreateFactory (some unpack) d meta).d.url
        = d.scheme ++ "://" ++ d.hostname ++ ":" ++ toString d.port) ∧
    ((∀ call ∈ (ResourceConvoxSyslogUpdateFactory (some unpack) d meta).calls,
        ∃ r, c.answer call = .ok r) →
      (ResourceConvoxSyslogUpdateFactory (some unpack) d meta).d.url
        = d.scheme ++ "://" ++ d.hostname ++ ":" ++ toString d.port) := by
  constructor
  · intro hsucc
    obtain ⟨o, -, h⟩ := create_with_client unpack d meta c hc
    rw [h] at hsucc ⊢
    cases hr : c.CreateResource "syslog" o with
    | error err =>
      rw [hr] at hsucc
      obtain ⟨r, hr2⟩ := hsucc (.CreateResource "syslog" o) (List.mem_singleton.mpr rfl)
      simp [Client.answer, hr] at hr2
    | ok r => simp [formURLString_eq]
  · intro hsucc
    obtain ⟨o, -, h⟩ := update_with_client unpack d meta c hc
    rw [h] at hsucc ⊢
    cases hr : c.UpdateResource d.name o with
    | error err =>
      rw [hr] at hsucc
      obtain ⟨r, hr2⟩ := hsucc (.UpdateResource d.name o) (List.mem_singleton.mpr rfl)
      simp [Client.answer, hr] at hr2
    | ok r => simp [formURLString_eq]

/-- C1 at the example scenario, starting from a stale `url`. -/
theorem url_after_create_and_update_witness :
    exampleData.url = "stale" ∧
    (ResourceConvoxSyslogCreateFactory (some okUnpacker) exampleData ()).d.url
      = "tcp://logs.example.com:514" ∧
    (ResourceConvoxSyslogUpdateFactory (some okUnpacker) exampleData ()).d.url
      = "tcp://logs.example.com:514" :=
  ⟨rfl,
   (url_after_create_and_update okUnpacker exampleData () okClient rfl).1
     (fun _ hmem => ⟨some ⟨[]⟩, by cases List.mem_singleton.mp hmem; rfl⟩),
   (url_after_create_and_update okUnpacker exampleData () okClient rfl).2
     (fun _ hmem => ⟨some ⟨[]⟩, by cases List.mem_singleton.mp hmem; rfl⟩)⟩

/-- C2, as stated, fails: with `private` explicitly set to `false`, the payloads
of create and update carry no `Private` key, so not the value `"false"`. -/
theorem private_false_is_not_sent :
    ({ exampleData with privateConfig := some false } : ResourceData).privateConfig = some false ∧
    (ResourceConvoxSyslogCreateFactory (some okUnpacker)
        { exampleData with privateConfig := some false } ()).calls
      = [.CreateResource "syslog" [("Url", "tcp://logs.example.com:514"), ("name", "logs1")]] ∧
    (ResourceConvoxSyslogUpdateFactory (some okUnpacker)
        { exampleData with privateConfig := some false } ()).calls
      = [.UpdateResource "logs1" [("Url", "tcp://logs.example.com:514")]] ∧
    Options.find [("Url", "tcp://logs.example.com:514"), ("name", "logs1")] "Private"
      ≠ some "false" ∧
    Options.find [("Url", "tcp://logs.example.com:514")] "Private" ≠ some "false" := by
  decide

/-- C2, amended: when the configuration sets `private` to `b`, create and update
each issue one remote call whose payload has `Private` equal to `"true"` if `b`
is true, and has no `Private` key if `b` is false. -/
theorem private_payload_when_set {Meta : Type} (unpack : ClientUnpacker Meta)
    (d : ResourceData) (meta : Meta) (c : Client) (b : Bool)
    (hc : unpack d meta = .ok c) (hb : d.privateConfig = some b) :
    (∃ o, (ResourceConvoxSyslogCreateFactory (some unpack) d meta).calls
            = [.CreateResource "syslog" o] ∧
          o.find "Private" = if b then some "true" else none) ∧
    (∃ o, (ResourceConvoxSyslogUpdateFactory (some unpack) d meta).calls
            = [.UpdateResource d.name o] ∧
          o.find "Private" = if b then some "true" else none) := by
  refine ⟨⟨_, create_calls unpack d meta c hc, ?_⟩, ⟨_, update_calls unpack d meta c hc, ?_⟩⟩
  · cases b <;> simp [hb, Options.find]
  · cases b <;> simp [hb, Options.find]

/-- C2 amended, at the example scenario (`private` set to `true`). -/
theorem private_payload_when_set_witness :
    (∃ o, (ResourceConvoxSyslogCreateFactory (some okUnpacker) exampleData ()).calls
            = [.CreateResource "syslog" o] ∧
          o.find "Private" = some "true") ∧
    (∃ o, (ResourceConvoxSyslogUpdateFactory (some okUnpacker) exampleData ()).calls
            = [.UpdateResource "logs1" o] ∧
          o.find "Private" = some "true") :=
  private_payload_when_set okUnpacker exampleData () okClient true rfl rfl

/-- C3: when the configuration does not set `private`, create and update each
issue one remote call whose payload has no `Private` key. -/
theorem private_absent_when_unset {Meta : Type} (unpack : ClientUnpacker Meta)
    (d : ResourceData) (meta : Meta) (c : Client)
    (hc : unpack d meta = .ok c) (hn : d.privateConfig = none) :
    (∃ o, (ResourceConvoxSyslogCreateFactory (some unpack) d meta).calls
            = [.CreateResource "syslog" o] ∧
          o.find "Private" = none ∧ "Private" ∉ o.keys) ∧
    (∃ o, (ResourceConvoxSyslogUpdateFactory (some unpack) d meta).calls
            = [.UpdateResource d.name o] ∧
          o.find "Private" = none ∧ "Private" ∉ o.keys) := by
  refine ⟨⟨_, create_calls unpack d meta c hc, ?_⟩, ⟨_, update_calls unpack d meta c hc, ?_⟩⟩
  · simp [hn, Options.find, Options.keys]
  · simp [hn, Options.find, Options.keys]

/-- C3 at the example scenario with `private` left out of the configuration. -/
theorem private_absent_when_unset_witness :
    (∃ o, (ResourceConvoxSyslogCreateFactory (some okUnpacker)
              { exampleData with privateConfig := none } ()).calls
            = [.CreateResource "syslog" o] ∧
          o.find "Private" = none ∧ "Private" ∉ o.keys) ∧
    (∃ o, (ResourceConvoxSyslogUpdateFactory (some okUnpacker)
              { exampleData with privateConfig := none } ()).calls
            = [.UpdateResource "logs1" o] ∧
          o.find "Private" = none ∧ "Private" ∉ o.keys) :=
  private_absent_when_unset okUnpacker { exampleData with privateConfig := none } () okClient
    rfl rfl

/-- C4: built with a nil `clientUnpacker`, each of the four operations returns
the error `clientUnpacker is required`, issues no remote call and leaves the
declared state as it was. -/
theorem nil_unpacker_is_rejected {Meta : Type} (d : ResourceData) (meta : Meta) :
    ResourceConvoxSyslogCreateFactory (none : Option (ClientUnpacker Meta)) d meta
      = ⟨.err "clientUnpacker is required", d, []⟩ ∧
    ResourceConvoxSyslogReadFactory (none : Option (ClientUnpacker Meta)) d meta
      = ⟨.err "clientUnpacker is required", d, []⟩ ∧
    ResourceConvoxSyslogUpdateFactory (none : Option (ClientUnpacker Meta)) d meta
      = ⟨.err "clientUnpacker is required", d, []⟩ ∧
    ResourceConvoxSyslogDeleteFactory (none : Option (ClientUnpacker Meta)) d meta
      = ⟨.err "clientUnpacker is required", d, []⟩ :=
  ⟨rfl, rfl, rfl, rfl⟩

/-- C5: when the provisioner yields a client and `GetResource(name)` returns a
record, read sets `url` to the record's `URL` export and changes no other
field, whatever `url` held before. -/
theorem read_overwrites_url {Meta : Type} (unpack : ClientUnpacker Meta)
    (d : ResourceData) (meta : Meta) (c : Client) (r : Resource)
    (hc : unpack d meta = .ok c) (hr : c.GetResource d.name = .ok (some r)) :
    (ResourceConvoxSyslogReadFactory (some unpack) d meta).ret = .ok ∧
    (ResourceConvoxSyslogReadFactory (some unpack) d meta).d.url = r.Exports.get "URL" ∧
    (ResourceConvoxSyslogReadFactory (some unpack) d meta).d
      = { d with url := r.Exports.get "URL" } := by
  rw [read_with_client unpack d meta c hc, hr]
  exact ⟨rfl, rfl, rfl⟩

/-- C5 at the example scenario: the stale `url` is replaced by the export. -/
theorem read_overwrites_url_witness :
    exampleData.url = "stale" ∧
    (ResourceConvoxSyslogReadFactory (some okUnpacker) exampleData ()).ret = .ok ∧
    (ResourceConvoxSyslogReadFactory (some okUnpacker) exampleData ()).d.url = "tcp://remote:1" ∧
    (ResourceConvoxSyslogReadFactory (some okUnpacker) exampleData ()).d
      = { exampleData with url := "tcp://remote:1" } :=
  ⟨rfl, read_overwrites_url okUnpacker exampleData () okClient
    ⟨Options.set [] "URL" "tcp://remote:1"⟩ rfl rfl⟩

/-- C6, as stated, fails: when the provisioner fails, read, update and delete
return a message that does not contain `unpacking client in` followed by the
operation name; they say `getting client in` instead. -/
theorem unpacking_context_only_in_create :
    (ResourceConvoxSyslogReadFactory (some brokenUnpacker) exampleData ()).ret
      = .err "Error getting client in ReadFunc: no creds" ∧
    occursIn "unpacking client in ReadFunc".data
      "Error getting client in ReadFunc: no creds".data = false ∧
    (ResourceConvoxSyslogUpdateFactory (some brokenUnpacker) exampleData ()).ret
      = .err "Error getting client in UpdateFunc: no creds" ∧
    occursIn "unpacking client in UpdateFunc".data
      "Error getting client in UpdateFunc: no creds".data = false ∧
    (ResourceConvoxSyslogDeleteFactory (some brokenUnpacker) exampleData ()).ret
      = .err "Error getting client in DeleteFunc: no creds" ∧
    occursIn "unpacking client in DeleteFunc".data
      "Error getting client in DeleteFunc: no creds".data = false := by
  decide

/-- C6, amended: when the provisioner fails with error `e`, create returns
`Error unpacking client in CreateFunc: e`, and read, update and delete return
`Error getting client in ReadFunc: e`, `... UpdateFunc: e`, `... DeleteFunc: e`;
none of them issues a remote call or changes the declared state. -/
theorem provisioner_failure_is_wrapped {Meta : Type} (unpack : ClientUnpacker Meta)
    (d : ResourceData) (meta : Meta) (e : String) (he : unpack d meta = .error e) :
    ResourceConvoxSyslogCreateFactory (some unpack) d meta
      = ⟨.err ("Error unpacking client in CreateFunc: " ++ e), d, []⟩ ∧
    ResourceConvoxSyslogReadFactory (some unpack) d meta
      = ⟨.err ("Error getting client in ReadFunc: " ++ e), d, []⟩ ∧
    ResourceConvoxSyslogUpdateFactory (some unpack) d meta
      = ⟨.err ("Error getting client in UpdateFunc: " ++ e), d, []⟩ ∧
    ResourceConvoxSyslogDeleteFactory (some unpack) d meta
      = ⟨.err ("Error getting client in DeleteFunc: " ++ e), d, []⟩ := by
  refine ⟨?_, ?_, ?_, ?_⟩
  · simp only [ResourceConvoxSyslogCreateFactory, he, sprintf_unpack_create]
  · simp only [ResourceConvoxSyslogReadFactory, he, sprintf_unpack_read]
  · simp only [ResourceConvoxSyslogUpdateFactory, he, sprintf_unpack_update]
  · simp only [ResourceConvoxSyslogDeleteFactory, he, sprintf_unpack_delete]

/-- C6 amended, at a provisioner that fails with `no creds`. -/
theorem provisioner_failure_is_wrapped_witness :
    ResourceConvoxSyslogCreateFactory (some brokenUnpacker) exampleData ()
      = ⟨.err "Error unpacking client in CreateFunc: no creds", exampleData, []⟩ ∧
    ResourceConvoxSyslogReadFactory (some brokenUnpacker) exampleData ()
      = ⟨.err "Error getting client in ReadFunc: no creds", exampleData, []⟩ ∧
    ResourceConvoxSyslogUpdateFactory (some brokenUnpacker) exampleData ()
      = ⟨.err "Error getting client in UpdateFunc: no creds", exampleData, []⟩ ∧
    ResourceConvoxSyslogDeleteFactory (some brokenUnpacker) exampleData ()
      = ⟨.err "Error getting client in DeleteFunc: no creds", exampleData, []⟩ :=
  provisioner_failure_is_wrapped brokenUnpacker exampleData () "no creds" rfl

/-- C7: when the provisioner yields a client and the `CreateResource` call
fails with error `e`, create returns `Error calling CreateResource: e -- options`
where `options` is the text of the very payload that was passed to
`CreateResource`: `map[Url:u name:n]`, or `map[Private:true Url:u name:n]` when
`private` is true, with `u` the composed URL and `n` the name.  The declared
state, `url` included, is the one before the call. -/
theorem create_failure_reports_options {Meta : Type} (unpack : ClientUnpacker Meta)
    (d : ResourceData) (meta : Meta) (c : Client) (e : String)
    (hc : unpack d meta = .ok c)
    (hfail : ∀ call ∈ (ResourceConvoxSyslogCreateFactory (some unpack) d meta).calls,
      c.answer call = .error e) :
    ∃ o, (ResourceConvoxSyslogCreateFactory (some unpack) d meta).calls
          = [.CreateResource "syslog" o] ∧
      o = (if d.privateConfig.getD false
            then [("Private", "true"),
                  ("Url", d.scheme ++ "://" ++ d.hostname ++ ":" ++ toString d.port),
                  ("name", d.name)]
            else [("Url", d.scheme ++ "://" ++ d.hostname ++ ":" ++ toString d.port),
                  ("name", d.name)]) ∧
      (ResourceConvoxSyslogCreateFactory (some unpack) d meta).ret
          = .err ("Error calling CreateResource: " ++ e ++ " -- " ++
              (if d.privateConfig.getD false
                then "map[Private:true Url:" ++
                  (d.scheme ++ "://" ++ d.hostname ++ ":" ++ toString d.port) ++
                  " name:" ++ d.name ++ "]"
                else "map[Url:" ++
                  (d.scheme ++ "://" ++ d.hostname ++ ":" ++ toString d.port) ++
                  " name:" ++ d.name ++ "]")) ∧
      (ResourceConvoxSyslogCreateFactory (some unpack) d meta).ret
          = .err ("Error calling CreateResource: " ++ e ++ " -- " ++ Sprintf "%v" [.strmap o]) ∧
      (ResourceConvoxSyslogCreateFactory (some unpack) d meta).d = d := by
  obtain ⟨o, ho, h⟩ := create_with_client unpack d meta c hc
  have hcalls := create_calls unpack d meta c hc
  rw [← ho] at hcalls
  have hans := hfail (.CreateResource "syslog" o) (by rw [hcalls]; exact List.mem_singleton.mpr rfl)
  have hr : c.CreateResource "syslog" o = .error e := hans
  have hret : (ResourceConvoxSyslogCreateFactory (some unpack) d meta).ret
      = .err ("Error calling CreateResource: " ++ e ++ " -- " ++ Sprintf "%v" [.strmap o]) := by
    rw [h, hr]
  refine ⟨o, hcalls, ?_, ?_, hret, ?_⟩
  · rw [ho, formURLString_eq]
  · rw [hret, ho, formURLString_eq]
    cases d.privateConfig.getD false
    · simp only [Bool.false_eq_true, if_false, sprintf_map_plain]
    · simp only [if_true, sprintf_map_private]
  · rw [h, hr]

/-- C7 at the example scenario with a remote that fails with `boom`: the
message carries the payload `map[Private:true Url:tcp://logs.example.com:514 name:logs1]`. -/
theorem create_failure_reports_options_witness :
    ∃ o, (ResourceConvoxSyslogCreateFactory (some failingRemoteUnpacker) exampleData ()).calls
          = [.CreateResource "syslog" o] ∧
      o = [("Private", "true"), ("Url", "tcp://logs.example.com:514"), ("name", "logs1")] ∧
      (ResourceConvoxSyslogCreateFactory (some failingRemoteUnpacker) exampleData ()).ret
          = .err ("Error calling CreateResource: boom -- " ++
              "map[Private:true Url:tcp://logs.example.com:514 name:logs1]") ∧
      (ResourceConvoxSyslogCreateFactory (some failingRemoteUnpacker) exampleData ()).ret
          = .err ("Error calling CreateResource: " ++ "boom" ++ " -- " ++ Sprintf "%v" [.strmap o]) ∧
      (ResourceConvoxSyslogCreateFactory (some failingRemoteUnpacker) exampleData ()).d
          = exampleData :=
  create_failure_reports_options failingRemoteUnpacker exampleData () failClient "boom" rfl
    (fun _ hmem => by cases List.mem_singleton.mp hmem; rfl)

/-- C8: the payload update passes to `UpdateResource` has key set `Url` or
`Url`, `Private`, hence no `name`, `rack` or `cluster` key, and the payload
create passes for the same state is that payload with `name` added. -/
theorem update_payload_keys {Meta : Type} (unpack : ClientUnpacker Meta)
    (d : ResourceData) (meta : Meta) (c : Client) (hc : unpack d meta = .ok c) :
    ∃ uo co,
      (ResourceConvoxSyslogUpdateFactory (some unpack) d meta).calls
        = [.UpdateResource d.name uo] ∧
      (ResourceConvoxSyslogCreateFactory (some unpack) d meta).calls
        = [.CreateResource "syslog" co] ∧
      (uo.keys = ["Url"] ∨ uo.keys = ["Private", "Url"]) ∧
      "name" ∉ uo.keys ∧ "rack" ∉ uo.keys ∧ "cluster" ∉ uo.keys ∧
      co = uo.set "name" d.name ∧ co.find "name" = some d.name := by
  refine ⟨_, _, update_calls unpack d meta c hc, create_calls unpack d meta c hc, ?_⟩
  cases d.privateConfig.getD false
  · refine ⟨Or.inl rfl, ?_, ?_, ?_, rfl, rfl⟩ <;> simp [Options.keys]
  · refine ⟨Or.inr rfl, ?_, ?_, ?_, rfl, rfl⟩ <;> simp [Options.keys]

/-- C8 at the example scenario. -/
theorem update_payload_keys_witness :
    ∃ uo co,
      (ResourceConvoxSyslogUpdateFactory (some okUnpacker) exampleData ()).calls
        = [.UpdateResource "logs1" uo] ∧
      (ResourceConvoxSyslogCreateFactory (some okUnpacker) exampleData ()).calls
        = [.CreateResource "syslog" co] ∧
      (uo.keys = ["Url"] ∨ uo.keys = ["Private", "Url"]) ∧
      "name" ∉ uo.keys ∧ "rack" ∉ uo.keys ∧ "cluster" ∉ uo.keys ∧
      co = uo.set "name" "logs1" ∧ co.find "name" = some "logs1" :=
  update_payload_keys okUnpacker exampleData () okClient rfl

/-- C9: when the provisioner yields a client and the `DeleteResource` call
succeeds, delete returns `nil` and the declared state after the call equals
the one before it, field for field. -/
theorem delete_keeps_declared_state {Meta : Type} (unpack : ClientUnpacker Meta)
    (d : ResourceData) (meta : Meta) (c : Client) (hc : unpack d meta = .ok c)
    (hsucc : ∀ call ∈ (ResourceConvoxSyslogDeleteFactory (some unpack) d meta).calls,
      ∃ r, c.answer call = .ok r) :
    (ResourceConvoxSyslogDeleteFactory (some unpack) d meta).ret = .ok ∧
    (ResourceConvoxSyslogDeleteFactory (some unpack) d meta).d = d := by
  have hcalls := delete_calls unpack d meta c hc
  obtain ⟨r, hr⟩ := hsucc (.DeleteResource d.name) (by rw [hcalls]; exact List.mem_singleton.mpr rfl)
  have hr2 : c.DeleteResource d.name = .ok r := hr
  rw [delete_with_client unpack d meta c hc, hr2]
  exact ⟨rfl, rfl⟩

/-- C9 at the example scenario. -/
theorem delete_keeps_declared_state_witness :
    (ResourceConvoxSyslogDeleteFactory (some okUnpacker) exampleData ()).ret = .ok ∧
    (ResourceConvoxSyslogDeleteFactory (some okUnpacker) exampleData ()).d = exampleData :=
  delete_keeps_declared_state okUnpacker exampleData () okClient rfl
    (fun _ hmem => ⟨some ⟨[]⟩, by cases List.mem_singleton.mp hmem; rfl⟩)

/-- C10: once the provisioner yields a client, each operation issues exactly
one remote call, whatever the client answers: create calls `CreateResource`
with type `syslog`, read calls `GetResource(name)`, update calls
`UpdateResource(name, options)` and delete calls `DeleteResource(name)`. -/
theorem exactly_one_remote_call {Meta : Type} (unpack : ClientUnpacker Meta)
    (d : ResourceData) (meta : Meta) (c : Client) (hc : unpack d meta = .ok c) :
    (∃ o, (ResourceConvoxSyslogCreateFactory (some unpack) d meta).calls
            = [.CreateResource "syslog" o]) ∧
    (ResourceConvoxSyslogReadFactory (some unpack) d meta).calls = [.GetResource d.name] ∧
    (∃ o, (ResourceConvoxSyslogUpdateFactory (some unpack) d meta).calls
            = [.UpdateResource d.name o]) ∧
    (ResourceConvoxSyslogDeleteFactory (some unpack) d meta).calls
      = [.DeleteResource d.name] :=
  ⟨⟨_, create_calls unpack d meta c hc⟩, read_calls unpack d meta c hc,
   ⟨_, update_calls unpack d meta c hc⟩, delete_calls unpack d meta c hc⟩

/-- C10 at the example scenario with a remote that fails every call. -/
theorem exactly_one_remote_call_witness :
    (∃ o, (ResourceConvoxSyslogCreateFactory (some failingRemoteUnpacker) exampleData ()).calls
            = [.CreateResource "syslog" o]) ∧
    (ResourceConvoxSyslogReadFactory (some failingRemoteUnpacker) exampleData ()).calls
      = [.GetResource "logs1"] ∧
    (∃ o, (ResourceConvoxSyslogUpdateFactory (some failingRemoteUnpacker) exampleData ()).calls
            = [.UpdateResource "logs1" o]) ∧
    (ResourceConvoxSyslogDeleteFactory (some failingRemoteUnpacker) exampleData ()).calls
      = [.DeleteResource "logs1"] :=
  exactly_one_remote_call failingRemoteUnpacker exampleData () failClient rfl

end Convox
